import Mathlib

/-!
Shallow embedding of the `flakybot_pytest_runner` plugin
(`src/flakybot_pytest_runner/attributes.py` and
`src/flakybot_pytest_runner/runner.py`) and proofs about the claims of
its specification.

Modelling conventions:
* Python exceptions are modelled with `Except PyError`.
* A pytest `Item`'s `__dict__` is an association list from attribute-name
  strings to stored values (`PyVal`); `setattr`/`getattr` are list update
  and lookup.  The resolution of `item.instance` / `item.parent.obj` done
  by `_get_test_instance` is collapsed into the two fields
  `instanceModule` / `instanceName` of `TestItem` (the `__module__` and
  `__name__` of the resolved test instance).
* Python class-attribute access `FlakyTestAttributes.NAME` is a lookup in
  the (finite, statically known) attribute table of the class defined in
  `attributes.py`; a name outside the table raises `AttributeError`, as
  Python does.
* Machine integers are `Int` (Python ints are unbounded, so no wrap).
-/

deriving instance DecidableEq for Except

inductive PyError where
  | attributeError (msg : String)
  | typeError (msg : String)
  | valueError (msg : String)
  | networkError (msg : String)
deriving Repr, DecidableEq

/-- Truthiness of a Python value that is either `None` or an int:
`None` and `0` are falsy, every other int is truthy. -/
def pyTruthyInt : Option Int → Bool
  | none => false
  | some n => n ≠ 0

/-- Generic Python dict update `d[k] = v` for a dict modelled as an
association list: replaces the value of an existing key, otherwise
appends the binding. -/
def dictSet {β : Type} : List (String × β) → String → β → List (String × β)
  | [], k, v => [(k, v)]
  | (k₀, v₀) :: rest, k, v =>
    if k₀ = k then (k, v) :: rest else (k₀, v₀) :: dictSet rest k v

/-- The captured `excinfo` of a pytest `CallInfo`:  only the exception
type name is inspected by the runner (`exc_info.typename == "Skipped"`),
so the triple `(type, value, traceback)` is represented by its typename. -/
structure ExcInfo where
  typename : String
deriving Repr, DecidableEq

/-- A pytest `CallInfo` as far as the plugin reads it: the object returned
by `call_runtest_hook`, whose `excinfo` attribute is `None` on success. -/
structure CallInfo where
  excinfo : Option ExcInfo
deriving Repr, DecidableEq

/-- A value stored in a test item's `__dict__` by this plugin: either an
int counter/threshold or the accumulated list of failure triples.  Each
failure triple `(exc_info.type, exc_info.value, exc_info.traceback)` (or
`(None, None, None)` when `exc_info` is falsy) is represented by the
`Option ExcInfo` it was built from. -/
inductive PyVal where
  | int (n : Int)
  | errList (l : List (Option ExcInfo))
deriving Repr, DecidableEq

/-- attributes.py line 1: `DEFAULT_MAX_RUNS = 2`. -/
def DEFAULT_MAX_RUNS : Int := 2

/-- attributes.py line 2: `DEFAULT_MIN_PASSES = 1`. -/
def DEFAULT_MIN_PASSES : Int := 1

namespace FlakyTestAttributes

/-- attributes.py line 9. -/
def CURRENT_ERRORS : String := "_current_errors"

/-- attributes.py line 10. -/
def CURRENT_RUNS : String := "_current_runs"

/-- attributes.py line 11. -/
def CURRENT_PASSES : String := "_current_passes"

/-- attributes.py line 12. -/
def MAX_RUNS : String := "_max_runs"

/-- attributes.py line 13. -/
def MIN_PASSES : String := "_min_passes"

/-- The class-attribute table of `FlakyTestAttributes`: these five
constants are the only data attributes the class body defines
(attributes.py lines 9-13), so Python class-attribute lookup succeeds
exactly on these five names. -/
def classAttrTable : String → Option String := fun n =>
  if n = "CURRENT_ERRORS" then some CURRENT_ERRORS
  else if n = "CURRENT_RUNS" then some CURRENT_RUNS
  else if n = "CURRENT_PASSES" then some CURRENT_PASSES
  else if n = "MAX_RUNS" then some MAX_RUNS
  else if n = "MIN_PASSES" then some MIN_PASSES
  else none

end FlakyTestAttributes

/-- Evaluation of the Python expression `FlakyTestAttributes.NAME`:
returns the attribute's value, or raises `AttributeError` when the class
defines no such attribute (this is what CPython does for a missing class
attribute). -/
def pyClassAttr (n : String) : Except PyError String :=
  match FlakyTestAttributes.classAttrTable n with
  | some s => Except.ok s
  | none =>
    Except.error (PyError.attributeError
      ("type object FlakyTestAttributes has no attribute " ++ n))

/-- A pytest test `Item` as far as the plugin reads and writes it. -/
structure TestItem where
  /-- `item.name`, e.g. `"test_sample"` or `"test_sample[1]"`. -/
  name : String
  /-- `__module__` of the resolved test instance (`None` when absent). -/
  instanceModule : Option String
  /-- `__name__` of the resolved test instance. -/
  instanceName : String
  /-- `item.__dict__`, restricted to the attributes this plugin touches. -/
  dict : List (String × PyVal)
  /-- `item.excinfo`, assigned at runner.py line 105. -/
  excinfo : Option ExcInfo := none
deriving Repr, DecidableEq

/-- runner.py lines 181-190, `_set_flaky_attribute`:
`test_item.__dict__[attr] = value`. -/
def set_flaky_attribute (test_item : TestItem) (attr : String) (value : PyVal) :
    TestItem :=
  { test_item with dict := dictSet test_item.dict attr value }

/-- runner.py lines 165-167, `_get_flaky_attribute`:
`getattr(test_item, attr, None)`. -/
def get_flaky_attribute (test_item : TestItem) (attr : String) : Option PyVal :=
  test_item.dict.lookup attr

/-- attributes.py lines 24-47, `FlakyTestAttributes.default_flaky_attributes`.
`if not max_runs` / `if not min_passes` replace falsy arguments (`None`
or `0`) by the module defaults; then the two validation checks raise
`ValueError`; otherwise the dict of initial flaky attributes is returned
in the source's insertion order. -/
def default_flaky_attributes (max_runs₀ min_passes₀ : Option Int) :
    Except PyError (List (String × PyVal)) :=
  let max_runs : Int :=
    if pyTruthyInt max_runs₀ then max_runs₀.getD DEFAULT_MAX_RUNS
    else DEFAULT_MAX_RUNS
  let min_passes : Int :=
    if pyTruthyInt min_passes₀ then min_passes₀.getD DEFAULT_MIN_PASSES
    else DEFAULT_MIN_PASSES
  if min_passes ≤ 0 then
    Except.error (PyError.valueError "min_passes must be positive")
  else if max_runs < min_passes then
    Except.error (PyError.valueError "min_passes is less than max_runs")
  else
    Except.ok
      [(FlakyTestAttributes.MAX_RUNS, PyVal.int max_runs),
       (FlakyTestAttributes.MIN_PASSES, PyVal.int min_passes),
       (FlakyTestAttributes.CURRENT_RUNS, PyVal.int 0),
       (FlakyTestAttributes.CURRENT_PASSES, PyVal.int 0)]

/-- runner.py lines 192-202, `_mark_flaky`: sets every attribute of
`default_flaky_attributes(max_runs, min_passes)` on the test item
(propagating the `ValueError` it may raise). -/
def mark_flaky (test : TestItem) (max_runs min_passes : Option Int) :
    Except PyError TestItem := do
  let attr_dict ← default_flaky_attributes max_runs min_passes
  return attr_dict.foldl (fun t kv => set_flaky_attribute t kv.1 kv.2) test

/-- runner.py lines 247-249, `is_flaky_test`:
`FlakyTestAttributes.MIN_PASSES in test.__dict__`. -/
def is_flaky_test (test : TestItem) : Bool :=
  (test.dict.lookup FlakyTestAttributes.MIN_PASSES).isSome

/-- runner.py lines 240-241, `increment`:
`setattr(test, attribute, getattr(test, attribute, 0) + 1)` — a
`TypeError` is raised if the stored value is not an int. -/
def increment (test : TestItem) (attrName : String) : Except PyError TestItem :=
  match (get_flaky_attribute test attrName).getD (PyVal.int 0) with
  | PyVal.int n =>
    Except.ok (set_flaky_attribute test attrName (PyVal.int (n + 1)))
  | PyVal.errList _ =>
    Except.error (PyError.typeError "unsupported operand type for +")

/-- Python `a >= b` on two optional stored values: comparing `None` with
an int (or a list) raises `TypeError`. -/
def pyGE : Option PyVal → Option PyVal → Except PyError Bool
  | some (PyVal.int a), some (PyVal.int b) => Except.ok (b ≤ a)
  | _, _ => Except.error (PyError.typeError "unorderable operands")

/-- Python `a < b` on two optional stored values, same conventions. -/
def pyLT : Option PyVal → Option PyVal → Except PyError Bool
  | some (PyVal.int a), some (PyVal.int b) => Except.ok (a < b)
  | _, _ => Except.error (PyError.typeError "unorderable operands")

/-- Python `x or []` applied to what `_get_flaky_attribute` returned for
the failure list: an absent attribute (`None`) yields the empty list. -/
def pyOrEmptyList : Option PyVal → List (Option ExcInfo)
  | some (PyVal.errList l) => l
  | _ => []

/-- Python `exc_info.typename` where `exc_info` may be `None`. -/
def pyTypename : Option ExcInfo → Except PyError String
  | some e => Except.ok e.typename
  | none =>
    Except.error
      (PyError.attributeError "NoneType object has no attribute typename")

/-- runner.py lines 243-245, `did_test_pass`:
`_get_flaky_attribute(test, FlakyTestAttributes.PASSES) >=
 _get_flaky_attribute(test, FlakyTestAttributes.MIN_PASSES)`.
Evaluation order follows Python: the left argument's class-attribute
expression `FlakyTestAttributes.PASSES` is evaluated first (and raises
`AttributeError`, since the class defines `CURRENT_PASSES`, not
`PASSES`). -/
def did_test_pass (test : TestItem) : Except PyError Bool := do
  let passesAttr ← pyClassAttr "PASSES"
  let minPassesAttr ← pyClassAttr "MIN_PASSES"
  pyGE (get_flaky_attribute test passesAttr)
    (get_flaky_attribute test minPassesAttr)

/-- runner.py lines 227-238, `handle_success`.  The source reads:
`if not self.is_flaky_test(test): return False`, then
`self.increment(test, FlakyTestAttributes.RUNS)`,
`self.increment(test, FlakyTestAttributes.PASSES)`,
`return not self.did_test_pass(test)`.  The class-attribute expressions
are evaluated before each `increment` call, exactly as in Python. -/
def handle_success (test : TestItem) : Except PyError (Bool × TestItem) := do
  if !is_flaky_test test then
    return (false, test)
  let runsAttr ← pyClassAttr "RUNS"
  let test ← increment test runsAttr
  let passesAttr ← pyClassAttr "PASSES"
  let test ← increment test passesAttr
  let passed ← did_test_pass test
  return (!passed, test)

/-- runner.py lines 204-225, `handle_failure`.  Statement for statement:
the failure triple is built from `exc_info` (or `(None, None, None)`);
inside `if self.is_flaky_test(test):` the source increments
`FlakyTestAttributes.RUNS`, appends the triple to
`FlakyTestAttributes.FAILURES`, and when the run count is still below
`MAX_RUNS` returns `not skipped` with
`skipped = exc_info.typename == "Skipped"`; every fall-through path ends
at the final `return False`.  All class-attribute expressions are
evaluated where Python evaluates them (so `FlakyTestAttributes.RUNS`
raises `AttributeError` first). -/
def handle_failure (test : TestItem) (exc_info : Option ExcInfo) :
    Except PyError (Bool × TestItem) := do
  let error : Option ExcInfo := exc_info
  if is_flaky_test test then
    let runsAttr ← pyClassAttr "RUNS"
    let test ← increment test runsAttr
    let failuresAttr ← pyClassAttr "FAILURES"
    let all_errors := pyOrEmptyList (get_flaky_attribute test failuresAttr)
    let test :=
      set_flaky_attribute test failuresAttr (PyVal.errList (all_errors ++ [error]))
    let maxRunsAttr ← pyClassAttr "MAX_RUNS"
    let lt ← pyLT (get_flaky_attribute test runsAttr)
      (get_flaky_attribute test maxRunsAttr)
    if lt then
      let tn ← pyTypename exc_info
      let skipped := tn = "Skipped"
      return (!skipped, test)
    else
      return (false, test)
  else
    return (false, test)

/-- A record of the remote flaky-test feed, runner.py lines 64-66: one
entry of `response["flaky_tests"]`, a dict holding at least a truthy
`test_name` (only such entries are stored), and optionally `class_name`,
`min_passes`, `max_runs`.  Because a stored entry always holds its
`test_name` key, the dict is non-empty and hence truthy in Python. -/
structure FlakyEntry where
  test_name : String
  class_name : Option String := none
  min_passes : Option Int := none
  max_runs : Option Int := none
deriving Repr, DecidableEq

/-- The mutable state of the `FlakybotRunner` plugin object together with
the slot of the host runner it monkey-patches (runner.py lines 13-18, 85,
88, 107).  `call_infos` holds the entry of the one item currently under
`pytest_runtest_protocol` (`none` models the key being absent from the
`call_infos` dict). -/
structure RunnerState where
  flaky_tests : List (String × FlakyEntry) := []
  min_passes : Int := DEFAULT_MIN_PASSES
  max_runs : Int := DEFAULT_MAX_RUNS
  /-- The host runner plugin's `call_and_report` slot: `false` is the
  original `_pytest.runner.call_and_report`, `true` the plugin's
  monkey-patched method. -/
  hostCallAndReport : Bool := false
  call_infos : Option (List (String × CallInfo)) := none
deriving Repr, DecidableEq

/-- The JSON body returned by the flaky-test API, as read at runner.py
line 62: `flaky_tests = some l` models a response whose `"flaky_tests"`
key is present with list `l`; `none` models an absent key
(`response.get("flaky_tests", [])` then yields `[]`). -/
structure ApiResponse where
  flaky_tests : Option (List FlakyEntry) := none
deriving Repr, DecidableEq

/-- runner.py lines 36-66, `get_flaky_tests`, data part.  The CI-specific
environment reading (lines 37-60) only shapes the request and is dropped;
the HTTP call `requests.get(url, headers=headers, params=params).json()`
(line 61) is the external collaborator and is passed in as an
`Except PyError ApiResponse`: the source has no try/except around it, so
a raising call propagates out unchanged.  On success the entries with a
truthy `test_name` are keyed into `self.flaky_tests` (lines 64-66). -/
def get_flaky_tests (http : Except PyError ApiResponse) (st : RunnerState) :
    Except PyError RunnerState := do
  let response ← http
  let av_flaky_tests := response.flaky_tests.getD []
  return { st with
    flaky_tests :=
      av_flaky_tests.foldl
        (fun m t => if t.test_name ≠ "" then dictSet m t.test_name t else m)
        st.flaky_tests }

/-- runner.py lines 129-142, `_get_class_name`: the `__name__` of the
resolved test instance, prefixed by `__module__ + "."` when `__module__`
is truthy (a non-empty string). -/
def get_class_name (test : TestItem) : String :=
  let class_name := test.instanceName
  match test.instanceModule with
  | some m => if m = "" then class_name else m ++ "." ++ test.instanceName
  | none => class_name

/-- runner.py lines 144-155, `_get_test_name`: strips a trailing
parametrization suffix, `callable_name[:callable_name.index("[")]` when
the name ends with `"]"` and contains `"["`.  `endswith("]")` with a
one-character suffix is the last-character test, and `"[" in s` with a
one-character operand is `contains`.  (Note: this helper is defined in
the source but never called by `pytest_runtest_protocol`.) -/
def get_test_name (test : TestItem) : String :=
  let callable_name := test.name
  if callable_name.data.getLast? = some ']' && callable_name.data.contains '[' then
    String.mk (callable_name.data.take (callable_name.data.indexOf '['))
  else callable_name

/-- Python substring test `needle in hay` on strings. -/
def isSubstring (needle hay : String) : Bool :=
  decide (List.IsInfix needle.data hay.data)

/-- runner.py lines 71-75: the condition guarding `_mark_flaky`:
`self.flaky_tests and self.flaky_tests.get(item.name) and
 self.flaky_tests[item.name].get("class_name") in class_name`
with Python short-circuiting: an empty `flaky_tests` dict or a missing
key yields a falsy condition; an entry present but lacking `class_name`
makes the `in` test raise `TypeError` (`None in str`); otherwise the
substring test decides. -/
def runtest_flaky_condition (st : RunnerState) (item : TestItem) :
    Except PyError Bool :=
  if st.flaky_tests = [] then Except.ok false
  else
    match st.flaky_tests.lookup item.name with
    | none => Except.ok false
    | some entry =>
      match entry.class_name with
      | none =>
        Except.error (PyError.typeError
          "in requires string as left operand, not NoneType")
      | some cn => Except.ok (isSubstring cn (get_class_name item))

/-- runner.py lines 69-82: the pre-loop phase of
`pytest_runtest_protocol` — evaluate the flaky condition and, when it
holds, resolve the per-entry `min_passes`/`max_runs` overrides (a truthy
entry value wins over the plugin-wide default, lines 76-81) and mark the
item flaky.  Both the condition's `TypeError` and `_mark_flaky`'s
`ValueError` propagate; this all happens before the `try` block. -/
def mark_phase (st : RunnerState) (item : TestItem) : Except PyError TestItem :=
  match runtest_flaky_condition st item with
  | Except.error e => Except.error e
  | Except.ok false => Except.ok item
  | Except.ok true =>
    match st.flaky_tests.lookup item.name with
    | none => Except.ok item
    | some entry =>
      let min_passes :=
        if pyTruthyInt entry.min_passes then entry.min_passes.getD st.min_passes
        else st.min_passes
      let max_runs :=
        if pyTruthyInt entry.max_runs then entry.max_runs.getD st.max_runs
        else st.max_runs
      mark_flaky item (some max_runs) (some min_passes)

/-- One invocation of the underlying
`self.runner.pytest_runtest_protocol(item, nextitem)` (runner.py line
90), described by what the monkey-patched `call_and_report` records into
`call_infos[item]` during that attempt: the `(when, CallInfo)` pairs in
call order (runner.py lines 111-127, `self.call_infos[item][when] =
call`).  A passing attempt records `setup`, `call` and `teardown` infos
without `excinfo`; a failing one records an `excinfo` on the relevant
phase; an attempt that produced no report records nothing. -/
structure Attempt where
  records : List (String × CallInfo)
deriving Repr, DecidableEq

/-- The updates the patched `call_and_report` performs on
`call_infos[item]` during one attempt. -/
def applyAttempt (entry : List (String × CallInfo)) (a : Attempt) :
    List (String × CallInfo) :=
  a.records.foldl (fun d kv => dictSet d kv.1 kv.2) entry

/-- runner.py lines 91-95: the scan
`for when in ["setup", "call"]: ...` with its `break`.  After the loop,
`call_info` and `exc_info` hold the values of the last executed
iteration: the setup info when it carries an `excinfo` (break), otherwise
the call-phase info (possibly `None`).  `getattr(call_info, "excinfo",
None)` on a `None` call_info yields `None` via the default. -/
def scan_call_infos (entry : List (String × CallInfo)) :
    Option CallInfo × Option ExcInfo :=
  let ci_setup := entry.lookup "setup"
  let exc_setup := ci_setup.bind fun c => c.excinfo
  if exc_setup.isSome then (ci_setup, exc_setup)
  else
    let ci_call := entry.lookup "call"
    (ci_call, ci_call.bind fun c => c.excinfo)

/-- How one run of `pytest_runtest_protocol` exits. -/
inductive ProtocolOutcome where
  /-- `return True` (runner.py line 109), after the loop ended. -/
  | handled
  /-- `return False` (runner.py line 98): no usable call info. -/
  | notHandled
  /-- An exception propagated out of the method. -/
  | raised (e : PyError)
  /-- Model artifact: the loop asked for another attempt but the supplied
  attempt list was exhausted. -/
  | outOfAttempts
deriving Repr, DecidableEq

/-- runner.py lines 89-105: the `while should_rerun:` loop, consuming one
supplied `Attempt` per iteration.  Returns the exit mode, the number of
attempts executed, the item as mutated by the handlers, and the final
`call_infos[item]` entry.  The handlers' `AttributeError` is raised by
the first statement they execute, before any mutation, so the item passes
through unchanged on that path. -/
def protocol_loop (item : TestItem) (entry : List (String × CallInfo)) :
    List Attempt → ProtocolOutcome × Nat × TestItem × List (String × CallInfo)
  | [] => (ProtocolOutcome.outOfAttempts, 0, item, entry)
  | a :: rest =>
    let entry := applyAttempt entry a
    let scanned := scan_call_infos entry
    let call_info := scanned.1
    let exc_info := scanned.2
    if call_info.isNone then (ProtocolOutcome.notHandled, 1, item, entry)
    else
      let passed := exc_info.isNone
      if passed then
        match handle_success item with
        | Except.error e => (ProtocolOutcome.raised e, 1, item, entry)
        | Except.ok (should_rerun, item) =>
          if should_rerun then
            let r := protocol_loop item entry rest
            (r.1, r.2.1 + 1, r.2.2)
          else (ProtocolOutcome.handled, 1, item, entry)
      else
        match handle_failure item exc_info with
        | Except.error e => (ProtocolOutcome.raised e, 1, item, entry)
        | Except.ok (should_rerun, item) =>
          if should_rerun then
            let r := protocol_loop item entry rest
            (r.1, r.2.1 + 1, r.2.2)
          else
            (ProtocolOutcome.handled, 1, { item with excinfo := exc_info }, entry)

/-- The observable result of one `pytest_runtest_protocol` run. -/
structure ProtocolResult where
  outcome : ProtocolOutcome
  attempts_executed : Nat
  item : TestItem
  state : RunnerState
deriving Repr, DecidableEq

/-- runner.py lines 68-109, `pytest_runtest_protocol`.  The marking phase
(lines 69-82) runs first and its exceptions propagate before
`call_infos[item]` is created or anything is patched.  Then (line 84)
`self.call_infos[item] = {}`, (line 85) the original `call_and_report` is
saved, (line 88, inside `try`) the slot is monkey-patched, the loop runs,
and the `finally` (lines 106-108) restores the saved slot and deletes the
item's `call_infos` entry on every exit path — normal return, `return
False`, or a propagating exception. -/
def pytest_runtest_protocol (st : RunnerState) (item : TestItem)
    (attempts : List Attempt) : ProtocolResult :=
  match mark_phase st item with
  | Except.error e =>
    { outcome := ProtocolOutcome.raised e, attempts_executed := 0,
      item := item, state := st }
  | Except.ok item =>
    let st := { st with call_infos := some [] }
    let default_call_and_report := st.hostCallAndReport
    let st := { st with hostCallAndReport := true }
    let r := protocol_loop item [] attempts
    let st := { st with
      hostCallAndReport := default_call_and_report, call_infos := none }
    { outcome := r.1, attempts_executed := r.2.1, item := r.2.2.1, state := st }

/-! ## Concrete fixtures used by the claim theorems -/

/-- A plain test item before any flaky marking: an unparametrized test
function `test_sample` in class `TestSample` of module `src.test`. -/
def baseItem : TestItem :=
  { name := "test_sample", instanceModule := some "src.test",
    instanceName := "TestSample", dict := [] }

/-- `baseItem` marked flaky with the default policy
(`max_runs = 2`, `min_passes = 1`), exactly as `_mark_flaky` marks it. -/
def flaggedItem : TestItem :=
  (mark_flaky baseItem (some 2) (some 1)).toOption.getD baseItem

/-- An attempt whose setup and call phases both succeed. -/
def passAttempt : Attempt :=
  { records := [("setup", { excinfo := none }), ("call", { excinfo := none }),
                ("teardown", { excinfo := none })] }

/-- An attempt whose call phase fails with an `AssertionError`. -/
def failAttempt : Attempt :=
  { records := [("setup", { excinfo := none }),
                ("call", { excinfo := some { typename := "AssertionError" } }),
                ("teardown", { excinfo := none })] }

/-- An attempt skipped during setup (`pytest.mark.skip` raises `Skipped`
in the setup phase). -/
def skipAttempt : Attempt :=
  { records := [("setup", { excinfo := some { typename := "Skipped" } }),
                ("teardown", { excinfo := none })] }

/-- An attempt that produced no report at all: the patched
`call_and_report` recorded nothing for any phase. -/
def emptyAttempt : Attempt := { records := [] }

/-- A fresh plugin state: empty flaky-test map, plugin-wide defaults,
original host `call_and_report`, no `call_infos` entries. -/
def initialRunnerState : RunnerState := {}

/-- A plugin state whose remote feed flags `test_sample` (class qualifier
`src.test`, no per-entry overrides, so the defaults
`max_runs = 2`, `min_passes = 1` apply). -/
def stFlagged : RunnerState :=
  { flaky_tests := [("test_sample",
      { test_name := "test_sample", class_name := some "src.test" })] }

/-- A plugin state whose remote feed flags `test_sample` with the
override `max_runs = 3` (so the policy is `max_runs = 3`,
`min_passes = 1`). -/
def stFlagged3 : RunnerState :=
  { flaky_tests := [("test_sample",
      { test_name := "test_sample", class_name := some "src.test",
        max_runs := some 3 })] }

/-! ## Claim theorems -/

/-- Claim C1.  The spec says `handle_success` increments the run and pass
counts and returns the rerun decision.  On the code this is false for
every flagged-flaky test: runner.py line 236 evaluates
`FlakyTestAttributes.RUNS`, an attribute the class in attributes.py does
not define (it defines `CURRENT_RUNS`), so the call raises
`AttributeError` before touching any counter — here shown on a test
marked with the default policy `max_runs = 2`, `min_passes = 1`. -/
theorem handle_success_raises_attribute_error :
    handle_success flaggedItem =
      Except.error (PyError.attributeError
        "type object FlakyTestAttributes has no attribute RUNS") := by
  decide

/-- Claim C2.  The spec says `handle_failure` increments the run count,
appends the failure record, and returns the rerun decision.  On the code
this is false for every flagged-flaky test: runner.py line 218 evaluates
`FlakyTestAttributes.RUNS` (undefined on the class, which defines
`CURRENT_RUNS`), so the call raises `AttributeError` before updating
anything — here shown on a flagged test with a failed attempt. -/
theorem handle_failure_raises_attribute_error :
    handle_failure flaggedItem (some { typename := "AssertionError" }) =
      Except.error (PyError.attributeError
        "type object FlakyTestAttributes has no attribute RUNS") := by
  decide

/-- Claim C3.  The spec says a flagged test with policy `(max_runs = 2,
min_passes = 1)` runs `[Fail, Pass]` to 2 attempts with verdict Pass, and
`[Fail, Fail]` to 2 attempts with verdict Fail and 2 accumulated failure
records.  On the code both sequences abort during the first attempt:
`handle_failure` raises `AttributeError` (missing
`FlakyTestAttributes.RUNS`), the exception propagates out of
`pytest_runtest_protocol`, only 1 attempt executes, and no failure record
is ever accumulated (`_current_errors` is never set). -/
theorem protocol_fail_sequences_raise_after_one_attempt :
    ((pytest_runtest_protocol stFlagged baseItem [failAttempt, passAttempt]).outcome
        = ProtocolOutcome.raised (PyError.attributeError
            "type object FlakyTestAttributes has no attribute RUNS") ∧
     (pytest_runtest_protocol stFlagged baseItem
        [failAttempt, passAttempt]).attempts_executed = 1) ∧
    ((pytest_runtest_protocol stFlagged baseItem [failAttempt, failAttempt]).outcome
        = ProtocolOutcome.raised (PyError.attributeError
            "type object FlakyTestAttributes has no attribute RUNS") ∧
     (pytest_runtest_protocol stFlagged baseItem
        [failAttempt, failAttempt]).attempts_executed = 1 ∧
     get_flaky_attribute
        (pytest_runtest_protocol stFlagged baseItem [failAttempt, failAttempt]).item
        FlakyTestAttributes.CURRENT_ERRORS = none) := by
  decide

/-- Claim C5.  The spec says a skipped attempt is terminal: with policy
`(max_runs = 3, min_passes = 1)` the sequence `[Skip]` stops after one
attempt with verdict Skip because the rerun decision is `false`.  On the
code no rerun decision is ever produced: `handle_failure` raises
`AttributeError` (missing `FlakyTestAttributes.RUNS`) before reaching the
skip check at runner.py line 223, and the protocol run ends with that
exception instead of a Skip verdict. -/
theorem protocol_skip_raises_attribute_error :
    (pytest_runtest_protocol stFlagged3 baseItem [skipAttempt]).outcome
        = ProtocolOutcome.raised (PyError.attributeError
            "type object FlakyTestAttributes has no attribute RUNS") ∧
    (pytest_runtest_protocol stFlagged3 baseItem
        [skipAttempt]).attempts_executed = 1 := by
  decide

/-- Claim C9.  The spec says `runs` is incremented by exactly one per
completed attempt and `passes ≤ runs` holds after every attempt.  On the
code no counter is ever incremented for a flagged test: a completed
passing attempt makes `handle_success` raise `AttributeError` (missing
`FlakyTestAttributes.RUNS`), and `_current_runs` is still 0 after the
attempt completed. -/
theorem runs_counter_untouched_after_completed_attempt :
    (pytest_runtest_protocol stFlagged baseItem [passAttempt]).outcome
        = ProtocolOutcome.raised (PyError.attributeError
            "type object FlakyTestAttributes has no attribute RUNS") ∧
    get_flaky_attribute
        (pytest_runtest_protocol stFlagged baseItem [passAttempt]).item
        FlakyTestAttributes.CURRENT_RUNS = some (PyVal.int 0) := by
  decide

/-- Claim C4, counterexample.  The claim says construction raises a
configuration error for every pair outside `min_passes ≥ 1 ∧ max_runs ≥
min_passes`, never silently falling back to the default policy.  The
input `max_runs = 0, min_passes = 1` lies outside that region
(`0 < 1`), yet `default_flaky_attributes` succeeds: `if not max_runs`
treats `0` as "unspecified" and silently replaces it by the default
`DEFAULT_MAX_RUNS = 2`, as the returned attribute dict shows. -/
theorem default_flaky_attributes_zero_falls_back_to_default :
    default_flaky_attributes (some 0) (some 1) =
      Except.ok
        [(FlakyTestAttributes.MAX_RUNS, PyVal.int 2),
         (FlakyTestAttributes.MIN_PASSES, PyVal.int 1),
         (FlakyTestAttributes.CURRENT_RUNS, PyVal.int 0),
         (FlakyTestAttributes.CURRENT_PASSES, PyVal.int 0)] := by
  decide

/-- The effective threshold used by policy construction, as the amended
claim words it: a falsy parameter (`None` or `0`) falls back to the
process-wide default, any other value is taken as given. -/
def effective_value (v : Option Int) (d : Int) : Int :=
  match v with
  | none => d
  | some n => if n = 0 then d else n

theorem pyTruthy_select_eq_effective (v : Option Int) (d : Int) :
    (if pyTruthyInt v then v.getD d else d) = effective_value v d := by
  cases v with
  | none => rfl
  | some n =>
    by_cases h : n = 0 <;> simp [pyTruthyInt, effective_value, h]

/-- Claim C4, amended.  Construction first replaces a falsy (`None` or
`0`) `max_runs`/`min_passes` by the defaults `2` and `1`; it then
succeeds exactly when the effective values satisfy `min_passes ≥ 1` and
`max_runs ≥ min_passes`, and raises a `ValueError` for every other pair
of effective values.  (In particular an explicit `0` silently degrades to
the default instead of erroring, which is where the original claim
fails.) -/
theorem default_flaky_attributes_ok_iff (mr mp : Option Int) :
    (default_flaky_attributes mr mp).isOk = true ↔
      (1 ≤ effective_value mp DEFAULT_MIN_PASSES ∧
       effective_value mp DEFAULT_MIN_PASSES ≤
         effective_value mr DEFAULT_MAX_RUNS) := by
  have hmr := pyTruthy_select_eq_effective mr DEFAULT_MAX_RUNS
  have hmp := pyTruthy_select_eq_effective mp DEFAULT_MIN_PASSES
  simp only [default_flaky_attributes, hmr, hmp]
  split_ifs with h1 h2 <;> simp [Except.isOk, Except.toBool] <;> omega

/-- A parametrized test item: test function `test_par` with parameter
suffix `[1]`, in class `TestC` of module `src.mod`. -/
def itemPar : TestItem :=
  { name := "test_par[1]", instanceModule := some "src.mod",
    instanceName := "TestC", dict := [] }

/-- A plugin state whose remote feed keys the entry by the suffix-free
test name `test_par`, with a class qualifier that is a substring of
`itemPar`'s local scope name `src.mod.TestC`. -/
def stPar : RunnerState :=
  { flaky_tests := [("test_par",
      { test_name := "test_par", class_name := some "src.mod" })] }

/-- Claim C6, counterexample.  For `itemPar` the leaf name with the
parametrization suffix stripped (`_get_test_name` yields `"test_par"`)
keys an entry of the remote map, and that entry's `class_name`
(`"src.mod"`) is a substring of the locally computed scope name
(`src.mod.TestC`), so the claim says the item is marked flaky.  The code,
however, looks the map up by the unstripped `item.name`
(`"test_par[1]"`, runner.py line 73): the guarding condition evaluates
falsy and the protocol leaves the item unmarked. -/
theorem remote_match_strip_counterexample :
    get_test_name itemPar = "test_par" ∧
    (stPar.flaky_tests.lookup (get_test_name itemPar)).isSome = true ∧
    isSubstring "src.mod" (get_class_name itemPar) = true ∧
    runtest_flaky_condition stPar itemPar = Except.ok false ∧
    is_flaky_test (pytest_runtest_protocol stPar itemPar [passAttempt]).item
      = false := by
  decide

/-- The amended remote-match rule, following what runner.py lines 71-75
actually check: the item's full name — parametrization suffix retained —
keys an entry of the remote map, and that entry carries a `class_name`
that is a substring of (or equal to) the locally computed
module-plus-class scope name. -/
def remote_match_amended (st : RunnerState) (item : TestItem) : Bool :=
  match st.flaky_tests.lookup item.name with
  | some entry =>
    match entry.class_name with
    | some cn => isSubstring cn (get_class_name item)
    | none => false
  | none => false

/-- Claim C6, amended.  A test item satisfies the condition under which
`pytest_runtest_protocol` marks it flaky from the remote policy data if
and only if its full `item.name` (with any parametrization suffix
retained, not stripped — `_get_test_name` is never called here) keys an
entry of the remote flaky-test map whose `class_name` is present and is a
substring of (or equal to) the locally computed module-plus-class scope
name.  (A keyed entry with no `class_name` makes the condition raise
`TypeError` rather than evaluate, hence "present".) -/
theorem runtest_flaky_condition_ok_true_iff (st : RunnerState)
    (item : TestItem) :
    runtest_flaky_condition st item = Except.ok true ↔
      remote_match_amended st item = true := by
  unfold runtest_flaky_condition remote_match_amended
  by_cases hempty : st.flaky_tests = []
  · simp [hempty]
  · simp only [hempty, if_false]
    cases hl : st.flaky_tests.lookup item.name with
    | none => simp
    | some entry =>
      cases hc : entry.class_name with
      | none => simp [hc]
      | some cn => simp [hc]

/-- Claim C7, counterexample.  The claim says a failing remote lookup
never propagates as an error.  But runner.py line 61 wraps
`requests.get(...).json()` in no try/except, so the raised connection
error propagates unchanged out of `get_flaky_tests` — and hence out of
`FlakybotRunner.__init__` at plugin construction (runner.py lines 20-22,
252). -/
theorem get_flaky_tests_propagates_network_error :
    get_flaky_tests (Except.error (PyError.networkError "ConnectionError"))
        initialRunnerState
      = Except.error (PyError.networkError "ConnectionError") := by
  decide

theorem handle_success_not_flaky (test : TestItem)
    (h : is_flaky_test test = false) :
    handle_success test = Except.ok (false, test) := by
  simp [handle_success, h]
  rfl

theorem handle_failure_not_flaky (test : TestItem)
    (exc_info : Option ExcInfo) (h : is_flaky_test test = false) :
    handle_failure test exc_info = Except.ok (false, test) := by
  simp [handle_failure, h]
  rfl

theorem protocol_loop_single_not_flaky (item : TestItem) (a : Attempt)
    (hclean : is_flaky_test item = false)
    (husable : (scan_call_infos (applyAttempt [] a)).1.isSome = true) :
    (protocol_loop item [] [a]).1 = ProtocolOutcome.handled ∧
    (protocol_loop item [] [a]).2.1 = 1 ∧
    is_flaky_test (protocol_loop item [] [a]).2.2.1 = false := by
  rw [protocol_loop]
  rcases hci : (scan_call_infos (applyAttempt [] a)).1 with _ | c
  · rw [hci] at husable
    simp at husable
  · rcases hex : (scan_call_infos (applyAttempt [] a)).2 with _ | ex
    · simp [hci, hex, handle_success_not_flaky item hclean, hclean]
    · simp [hci, hex, handle_failure_not_flaky item _ hclean]
      simpa [is_flaky_test] using hclean

/-- Claim C7, amended.  A failing remote lookup propagates its exception
out of `get_flaky_tests` (and so out of plugin construction) — it is not
swallowed.  It is only when the lookup completes (leaving the flaky-test
map empty) that every test is treated as not-flagged-flaky and runs with
default single-attempt behavior: with an empty map, a test that is not
already flaky-marked executes exactly one attempt (with any usable
outcome), the protocol returns normally, and the item is never marked
flaky. -/
theorem flaky_handling_amended (e : PyError) (st₀ st : RunnerState)
    (item : TestItem) (a : Attempt)
    (hempty : st.flaky_tests = [])
    (hclean : is_flaky_test item = false)
    (husable : (scan_call_infos (applyAttempt [] a)).1.isSome = true) :
    get_flaky_tests (Except.error e) st₀ = Except.error e ∧
    (pytest_runtest_protocol st item [a]).outcome = ProtocolOutcome.handled ∧
    (pytest_runtest_protocol st item [a]).attempts_executed = 1 ∧
    is_flaky_test (pytest_runtest_protocol st item [a]).item = false := by
  have hmark : mark_phase st item = Except.ok item := by
    simp [mark_phase, runtest_flaky_condition, hempty]
  have hloop := protocol_loop_single_not_flaky item a hclean husable
  refine ⟨rfl, ?_, ?_, ?_⟩ <;>
    simp only [pytest_runtest_protocol, hmark] <;>
    first
      | exact hloop.1
      | exact hloop.2.1
      | exact hloop.2.2

/-- Witness for the amended C7 theorem: a concrete unreachable-remote
error propagates, and with an empty flaky-test map the unmarked
`baseItem` runs exactly one (passing) attempt and stays unmarked. -/
theorem flaky_handling_amended_witness :
    get_flaky_tests (Except.error (PyError.networkError "unreachable"))
        initialRunnerState
      = Except.error (PyError.networkError "unreachable") ∧
    (pytest_runtest_protocol initialRunnerState baseItem [passAttempt]).outcome
      = ProtocolOutcome.handled ∧
    (pytest_runtest_protocol initialRunnerState baseItem
        [passAttempt]).attempts_executed = 1 ∧
    is_flaky_test (pytest_runtest_protocol initialRunnerState baseItem
        [passAttempt]).item = false :=
  flaky_handling_amended (PyError.networkError "unreachable")
    initialRunnerState initialRunnerState baseItem passAttempt
    (by decide) (by decide) (by decide)

/-- Claim C8.  When an attempt yields no usable outcome — after the
attempt neither a setup-phase `excinfo` nor any call-phase `CallInfo` was
recorded, so the scan of runner.py lines 91-95 leaves `call_info` as
`None` — the protocol returns `False` at line 98 immediately after that
first attempt: the loop aborts, no rerun happens regardless of the item's
flaky attributes and remaining budget, and the remaining attempts are
never consumed.  (The pre-loop marking phase is assumed not to raise,
which lines 69-82 may do for malformed remote entries.) -/
theorem no_usable_outcome_aborts (st : RunnerState) (item : TestItem)
    (a : Attempt) (rest : List Attempt)
    (hmark : (mark_phase st item).isOk = true)
    (hnone : (scan_call_infos (applyAttempt [] a)).1 = none) :
    (pytest_runtest_protocol st item (a :: rest)).outcome
        = ProtocolOutcome.notHandled ∧
    (pytest_runtest_protocol st item (a :: rest)).attempts_executed = 1 := by
  rcases hm : mark_phase st item with e | it
  · rw [hm] at hmark
    simp [Except.isOk, Except.toBool] at hmark
  · simp only [pytest_runtest_protocol, hm]
    rw [protocol_loop]
    simp [hnone]

/-- Witness for the C8 theorem: a flagged-flaky state, an attempt that
recorded nothing, and one further attempt in the queue that is never
consumed. -/
theorem no_usable_outcome_aborts_witness :
    (pytest_runtest_protocol stFlagged baseItem
        (emptyAttempt :: [passAttempt])).outcome
      = ProtocolOutcome.notHandled ∧
    (pytest_runtest_protocol stFlagged baseItem
        (emptyAttempt :: [passAttempt])).attempts_executed = 1 :=
  no_usable_outcome_aborts stFlagged baseItem emptyAttempt [passAttempt]
    (by decide) (by decide)

/-- Claim C10.  Whenever `pytest_runtest_protocol` exits — by `return
True`, by the `return False` of line 98, or with a propagating exception
— the `finally` block of runner.py lines 106-108 leaves the host runner's
`call_and_report` slot at the value saved on entry (line 85) and removes
the item's `call_infos` entry; and on the only exit path that bypasses
the `try` (an exception in the pre-loop marking phase) neither the slot
nor the table was touched yet.  So no monkey-patch and no per-item entry
outlives the call, for every initial state without a stale entry, every
item and every attempt sequence. -/
theorem protocol_restores_interception_state (st : RunnerState)
    (item : TestItem) (attempts : List Attempt)
    (h : st.call_infos = none) :
    (pytest_runtest_protocol st item attempts).state.hostCallAndReport
        = st.hostCallAndReport ∧
    (pytest_runtest_protocol st item attempts).state.call_infos = none := by
  rcases hm : mark_phase st item with e | it <;>
    simp [pytest_runtest_protocol, hm, h]

/-- Witness for the C10 theorem: a flagged run whose first attempt makes
the handlers raise, leaving the patch restored and the entry removed. -/
theorem protocol_restores_interception_state_witness :
    (pytest_runtest_protocol stFlagged baseItem
        [failAttempt]).state.hostCallAndReport
      = stFlagged.hostCallAndReport ∧
    (pytest_runtest_protocol stFlagged baseItem
        [failAttempt]).state.call_infos = none :=
  protocol_restores_interception_state stFlagged baseItem [failAttempt]
    (by decide)
